import Mathlib

/-!
Verification of the retry / error-normalization core of the
SillyTavern proxy middleware.

The Python source is shallowly embedded:

* `src/error_handler.py` (`ErrorHandler`): the status-code tables, the
  backoff-delay formula (`calculate_retry_delay`), the two retry loops
  (`retry_with_backoff`, `retry_with_conditional_logic`) and the
  context-aware conditional predicate (`_should_retry_conditionally`).
* `src/src/first_hop_proxy/response_parser.py` (`ResponseParser`): the
  recategorization rule evaluation (`_parse_json_response`,
  `_should_apply_rule`).
* `src/proxy_client.py` (`ProxyClient`): `_format_hard_stop_response`,
  `_is_blank_response` and the blank-content retry recursion inside
  `forward_request`.
* `src/src/first_hop_proxy/utils.py`: `apply_regex_replacements` and
  `process_messages_with_regex`.

Machine floats (`base_delay`, `max_delay`, jitter) are modelled over `ℚ`.
Python's `for attempt in range(1, max_retries + 2)` loops are embedded as
structural recursion on the number of remaining iterations, with the
attempt number carried explicitly, so that runs on concrete inputs reduce
by `decide`/`rfl`.  Calls to external libraries (the `re` regex engine,
`json.loads`) are embedded as explicit oracle parameters: the regex engine
as a search/substitution function, `json.loads` as the already-decoded
parse outcome.  `time.sleep` and logger calls have no effect on control
flow and are omitted.  Each definition's doc comment names the source
symbol it embeds.
-/

/-- ASCII model of Python `str.lower` applied to one character: letters
`A`–`Z` are shifted to lower case, all other characters kept. -/
def lowerChar (c : Char) : Char :=
  if 65 ≤ c.toNat ∧ c.toNat ≤ 90 then Char.ofNat (c.toNat + 32) else c

/-- ASCII model of Python `str.lower`. -/
def strLower (s : String) : String := ⟨s.data.map lowerChar⟩

/-- `isPrefixL needle hay`: `needle` is a prefix of `hay` (used to model
Python substring containment `needle in hay`). -/
def isPrefixL : List Char → List Char → Bool
  | [], _ => true
  | _ :: _, [] => false
  | a :: as, b :: bs => a == b && isPrefixL as bs

/-- `isInfixL needle hay`: `needle` occurs contiguously inside `hay`. -/
def isInfixL (needle : List Char) : List Char → Bool
  | [] => needle.isEmpty
  | b :: rest => isPrefixL needle (b :: rest) || isInfixL needle rest

/-- Model of Python `needle in hay` on strings. -/
def strContainsSub (hay needle : String) : Bool := isInfixL needle.data hay.data

/-- Python whitespace characters stripped by `str.strip()`. -/
def isPySpace (c : Char) : Bool :=
  c == ' ' || c == '\t' || c == '\n' || c == '\r' || c == '\x0b' || c == '\x0c'

/-- Model of Python `not content or content.strip() == ""`: the string is
empty or consists only of whitespace. -/
def isBlankStr (s : String) : Bool := s.data.all isPySpace

namespace ErrorHandler

/-- `self.retry_codes`, `src/error_handler.py` line 33 (the identical list
is `RETRY_CODES` in `src/src/first_hop_proxy/constants.py` line 14). -/
def retry_codes : List Nat :=
  [429, 502, 503, 504, 505, 507, 508, 511, 408, 409, 410, 423, 424, 425, 426, 428, 431, 451]

/-- `self.fail_codes`, `src/error_handler.py` line 36 (identical to
`FAIL_CODES` in `src/src/first_hop_proxy/constants.py` line 15). -/
def fail_codes : List Nat :=
  [400, 401, 403, 405, 406, 407, 411, 412, 413, 414, 415, 416, 417, 418, 421, 422]

/-- `self.conditional_retry_codes`, `src/error_handler.py` line 39
(identical to `CONDITIONAL_RETRY_CODES` in constants.py line 16). -/
def conditional_retry_codes : List Nat :=
  [404, 411, 412, 413, 414, 416, 417, 418, 421, 423, 424, 425, 426, 428, 431, 451]

/-- `self.conditional_retry_max_attempts = 2`, `src/error_handler.py` line 43. -/
def conditional_retry_max_attempts : Nat := 2

/-- `ErrorHandler.should_retry` for a response carrying a status code. -/
def should_retry (status : Nat) : Bool := retry_codes.contains status

/-- `ErrorHandler.should_retry_conditionally` for a response carrying a
status code. -/
def should_retry_conditionally (status : Nat) : Bool :=
  conditional_retry_codes.contains status

/-- `ErrorHandler.is_permanent_failure` for a response carrying a status
code. -/
def is_permanent_failure (status : Nat) : Bool := fail_codes.contains status

/-- `ErrorHandler.calculate_retry_delay` over `ℚ`.  `u` is the value drawn
by `random.uniform(-1, 1)`:
`delay = base_delay * 2^(attempt-1)`, `jitter = delay * 0.25 * u`,
result `min (delay + jitter) max_delay`. -/
def calculate_retry_delay (base_delay max_delay : ℚ) (attempt : Nat) (u : ℚ) : ℚ :=
  let delay := base_delay * 2 ^ (attempt - 1)
  let jitter := delay * (1 / 4) * u
  min (delay + jitter) max_delay

/-- The `for attempt in range(1, max_retries + 2)` loop of
`ErrorHandler.retry_with_backoff` (`src/error_handler.py` lines 127-173),
recursing on the number of remaining loop iterations.  `f n` is the
outcome of calling `func` on attempt `n`; `retryable` is
`should_retry_exception` restricted to the raised value.  The result pairs
the propagated outcome with the total number of calls to `f`; the error
component `Option ε` is `some e` for a raised exception `e` and `none` for
the unreachable final `raise last_exception` with no recorded exception. -/
def backoffLoop (max_retries : Nat) (retryable : ε → Bool) (f : Nat → Except ε α) :
    Nat → Nat → Option ε → Nat → Except (Option ε) α × Nat
  | 0, _, last, calls => (.error last, calls)
  | rem + 1, attempt, _, calls =>
    match f attempt with
    | .ok a => (.ok a, calls + 1)
    | .error e =>
      if retryable e = false then (.error (some e), calls + 1)
      else if attempt > max_retries then (.error (some e), calls + 1)
      else backoffLoop max_retries retryable f rem (attempt + 1) (some e) (calls + 1)

/-- `ErrorHandler.retry_with_backoff`: run the loop for
`max_retries + 1` iterations starting at attempt 1. -/
def retry_with_backoff (max_retries : Nat) (retryable : ε → Bool)
    (f : Nat → Except ε α) : Except (Option ε) α × Nat :=
  backoffLoop max_retries retryable f (max_retries + 1) 1 none 0

end ErrorHandler

/-- All calls fail with a retryable exception: every iteration of
`backoffLoop` recurses until the attempt counter exceeds `max_retries`,
so from attempt `attempt` with `rem = max_retries + 2 - attempt`
iterations left, the loop performs exactly `rem` further calls and
propagates the exception observed at attempt `max_retries + 1`. -/
theorem ErrorHandler.backoffLoop_all_retryable {ε α : Type} (max_retries : Nat)
    (retryable : ε → Bool) (f : Nat → Except ε α) (e : Nat → ε)
    (hf : ∀ n, f n = .error (e n)) (hr : ∀ n, retryable (e n) = true) :
    ∀ rem attempt last calls, 1 ≤ rem → attempt + rem = max_retries + 2 →
      ErrorHandler.backoffLoop max_retries retryable f rem attempt last calls =
        (.error (some (e (max_retries + 1))), calls + rem) := by
  intro rem
  induction rem with
  | zero => intro _ _ _ h; omega
  | succ r ih =>
    intro attempt last calls _ hsum
    rw [ErrorHandler.backoffLoop, hf attempt]
    simp only [hr attempt, Bool.true_eq_false, if_false]
    by_cases hr0 : r = 0
    · subst hr0
      have ha : attempt = max_retries + 1 := by omega
      have : attempt > max_retries := by omega
      simp [this, ha]
    · have hle : ¬ attempt > max_retries := by omega
      rw [if_neg hle]
      rw [ih (attempt + 1) (some (e attempt)) (calls + 1) (by omega) (by omega)]
      have hc : calls + 1 + r = calls + (r + 1) := by omega
      rw [hc]

/-- C1: if every call to the supplied operation fails with a failure that
`should_retry_exception` classifies as retryable, `retry_with_backoff`
calls the operation exactly `max_retries + 1` times (attempts 1 through
`max_retries + 1`) and then propagates the failure observed on the last
attempt. -/
theorem ErrorHandler.retry_with_backoff_exhausts {ε α : Type} (max_retries : Nat)
    (retryable : ε → Bool) (f : Nat → Except ε α) (e : Nat → ε)
    (hf : ∀ n, f n = .error (e n)) (hr : ∀ n, retryable (e n) = true) :
    ErrorHandler.retry_with_backoff max_retries retryable f =
      (.error (some (e (max_retries + 1))), max_retries + 1) := by
  have h := ErrorHandler.backoffLoop_all_retryable max_retries retryable f e hf hr
    (max_retries + 1) 1 none 0 (by omega) (by omega)
  simpa using h

/-- C1 witness: with `max_retries = 2` and every attempt raising a
retryable exception carrying its attempt number, the operation is called
exactly 3 times and the attempt-3 exception is propagated. -/
theorem ErrorHandler.retry_with_backoff_exhausts_witness :
    ErrorHandler.retry_with_backoff 2 (fun _ : Nat => true) (fun n => .error (α := Unit) n) =
      (.error (some 3), 3) :=
  ErrorHandler.retry_with_backoff_exhausts 2 (fun _ => true) (fun n => .error n) (fun n => n)
    (fun _ => rfl) (fun _ => rfl)

/-- C2 counterexample: the three configured status-code sets are not
pairwise disjoint — 423 is in both `retry_codes` and
`conditional_retry_codes`, and 411 is in both `fail_codes` and
`conditional_retry_codes`. -/
theorem ErrorHandler.code_sets_not_pairwise_disjoint :
    (423 ∈ ErrorHandler.retry_codes ∧ 423 ∈ ErrorHandler.conditional_retry_codes) ∧
      (411 ∈ ErrorHandler.fail_codes ∧ 411 ∈ ErrorHandler.conditional_retry_codes) := by
  decide

/-- C2 amended: `retry_codes` and `fail_codes` are disjoint, but
`conditional_retry_codes` overlaps both: it shares exactly
423, 424, 425, 426, 428, 431, 451 with `retry_codes` and exactly
411, 412, 413, 414, 416, 417, 418, 421 with `fail_codes`. -/
theorem ErrorHandler.code_sets_overlap :
    (∀ c ∈ ErrorHandler.retry_codes, c ∉ ErrorHandler.fail_codes) ∧
      ErrorHandler.retry_codes.filter (ErrorHandler.conditional_retry_codes.contains ·) =
        [423, 424, 425, 426, 428, 431, 451] ∧
      ErrorHandler.fail_codes.filter (ErrorHandler.conditional_retry_codes.contains ·) =
        [411, 412, 413, 414, 416, 417, 418, 421] := by
  decide

/-- C5: for every attempt `n ≥ 1` and jitter draw `u ∈ [-1, 1]`, with
`base_delay ≥ 0` and `max_delay ≥ 0`, the computed delay satisfies
`0 ≤ delay ≤ max_delay`. -/
theorem ErrorHandler.calculate_retry_delay_bounds (base_delay max_delay : ℚ)
    (attempt : Nat) (u : ℚ) (hb : 0 ≤ base_delay) (hm : 0 ≤ max_delay)
    (hu₁ : -1 ≤ u) (hu₂ : u ≤ 1) :
    0 ≤ ErrorHandler.calculate_retry_delay base_delay max_delay attempt u ∧
      ErrorHandler.calculate_retry_delay base_delay max_delay attempt u ≤ max_delay := by
  unfold ErrorHandler.calculate_retry_delay
  have hd : (0 : ℚ) ≤ base_delay * 2 ^ (attempt - 1) := by positivity
  constructor
  · rw [le_min_iff]
    refine ⟨?_, hm⟩
    nlinarith
  · exact min_le_right _ _

/-- C5 witness: `base_delay = 1`, `max_delay = 60`, attempt 3, jitter draw
`u = -1` give delay `3`, inside `[0, 60]`. -/
theorem ErrorHandler.calculate_retry_delay_bounds_witness :
    0 ≤ ErrorHandler.calculate_retry_delay 1 60 3 (-1) ∧
      ErrorHandler.calculate_retry_delay 1 60 3 (-1) ≤ 60 :=
  ErrorHandler.calculate_retry_delay_bounds 1 60 3 (-1) (by norm_num) (by norm_num)
    (by norm_num) (by norm_num)

namespace ErrorHandler

/-- A failure raised by the attempted operation inside
`retry_with_conditional_logic`: an `HTTPError` carrying the status code of
`e.response` (`none` when `e.response is None`), or any other exception,
embedded by its `should_retry_exception` classification. -/
inductive CondErr where
  | http (status : Option Nat)
  | exc (retryable : Bool)
deriving DecidableEq

/-- Observable outcome of one run of `retry_with_conditional_logic`:
the propagated result, the total number of calls to the attempted
operation, and how many of the performed retries went through the
conditional-retry branch.  In the error component, `some e` is a raised
exception and `none` the unreachable final `raise last_exception` with no
recorded exception. -/
structure RunStats (ε α : Type) where
  result : Except (Option ε) α
  calls : Nat
  condRetries : Nat

/-- `ErrorHandler._should_retry_conditionally`
(`src/error_handler.py` lines 280-309).  The context is read only through
`endpoint`: `is_models_request = 'models' in endpoint.lower()` and the
literal check `'chat/completions' in endpoint` (`request_type` is read but
never used in any decision). -/
def should_retry_conditionally_ctx (status : Nat) (endpoint : String)
    (attempt : Nat) : Bool :=
  let is_models_request := strContainsSub (strLower endpoint) "models"
  if status = 404 then
    (is_models_request && attempt ≤ 2) ||
      (strContainsSub endpoint "chat/completions" && attempt ≤ 1)
  else if status ∈ [408, 409, 410, 423, 424, 425, 426, 428] then
    attempt ≤ 2
  else if status ∈ [411, 412, 413, 414, 416, 417, 418, 421] then
    attempt ≤ 1
  else if status ∈ [431, 451] then
    attempt ≤ 2
  else
    false

/-- The `for attempt in range(1, max_retries + 2)` loop of
`ErrorHandler.retry_with_conditional_logic`
(`src/error_handler.py` lines 175-278), recursing on the number of
remaining iterations with the attempt number explicit.  Branch order is
the source's: HTTP failures check `is_permanent_failure` first, then
`should_retry` (bounded by `max_retries`), then
`should_retry_conditionally` with `conditional_retry_enabled`, the
context predicate and the `attempt > conditional_retry_max_attempts`
bound; non-HTTP exceptions use `should_retry_exception` (the `retryable`
flag) bounded by `max_retries`. -/
def condLoop (max_retries cond_max : Nat) (cond_enabled : Bool) (endpoint : String)
    (f : Nat → Except CondErr α) :
    Nat → Nat → Option CondErr → Nat → Nat → RunStats CondErr α
  | 0, _, last, calls, condR => ⟨.error last, calls, condR⟩
  | rem + 1, attempt, _, calls, condR =>
    match f attempt with
    | .ok a => ⟨.ok a, calls + 1, condR⟩
    | .error e =>
      match e with
      | .http (some status) =>
        if is_permanent_failure status then ⟨.error (some e), calls + 1, condR⟩
        else if should_retry status then
          if attempt > max_retries then ⟨.error (some e), calls + 1, condR⟩
          else condLoop max_retries cond_max cond_enabled endpoint f rem
            (attempt + 1) (some e) (calls + 1) condR
        else if should_retry_conditionally status && cond_enabled then
          if should_retry_conditionally_ctx status endpoint attempt then
            if attempt > cond_max then ⟨.error (some e), calls + 1, condR⟩
            else condLoop max_retries cond_max cond_enabled endpoint f rem
              (attempt + 1) (some e) (calls + 1) (condR + 1)
          else ⟨.error (some e), calls + 1, condR⟩
        else ⟨.error (some e), calls + 1, condR⟩
      | .http none => ⟨.error (some e), calls + 1, condR⟩
      | .exc retryable =>
        if retryable = false then ⟨.error (some e), calls + 1, condR⟩
        else if attempt > max_retries then ⟨.error (some e), calls + 1, condR⟩
        else condLoop max_retries cond_max cond_enabled endpoint f rem
          (attempt + 1) (some e) (calls + 1) condR

/-- `ErrorHandler.retry_with_conditional_logic`: run the loop for
`max_retries + 1` iterations starting at attempt 1 with no conditional
retries recorded. -/
def retry_with_conditional_logic (max_retries cond_max : Nat) (cond_enabled : Bool)
    (endpoint : String) (f : Nat → Except CondErr α) : RunStats CondErr α :=
  condLoop max_retries cond_max cond_enabled endpoint f (max_retries + 1) 1 none 0 0

/-- Attempt outcomes for the C3 counterexample, run A: two unconditional
retryable failures (HTTP 503) followed by persistent HTTP 404. -/
def c3prefixed : Nat → Except CondErr Unit := fun n =>
  if n ≤ 2 then .error (.http (some 503)) else .error (.http (some 404))

/-- Attempt outcomes for the C3 counterexample, run B: persistent HTTP 404
from the first attempt on. -/
def c3direct : Nat → Except CondErr Unit := fun _ => .error (.http (some 404))

end ErrorHandler

/-- One iteration of `condLoop` on an HTTP failure in `fail_codes`:
the loop raises immediately. -/
theorem ErrorHandler.condLoop_step_permanent {α : Type} {mr cm : Nat} {ce : Bool}
    {ep : String} {f : Nat → Except ErrorHandler.CondErr α} {rem attempt calls condR : Nat}
    {last : Option ErrorHandler.CondErr} {status : Nat}
    (h : f attempt = .error (.http (some status)))
    (hperm : ErrorHandler.is_permanent_failure status = true) :
    ErrorHandler.condLoop mr cm ce ep f (rem + 1) attempt last calls condR =
      ⟨.error (some (.http (some status))), calls + 1, condR⟩ := by
  rw [ErrorHandler.condLoop, h]
  simp [hperm]

/-- One iteration of `condLoop` on an HTTP failure in `retry_codes` with
the attempt budget not yet exhausted: the loop retries unconditionally. -/
theorem ErrorHandler.condLoop_step_retry {α : Type} {mr cm : Nat} {ce : Bool}
    {ep : String} {f : Nat → Except ErrorHandler.CondErr α} {rem attempt calls condR : Nat}
    {last : Option ErrorHandler.CondErr} {status : Nat}
    (h : f attempt = .error (.http (some status)))
    (hperm : ErrorHandler.is_permanent_failure status = false)
    (hret : ErrorHandler.should_retry status = true)
    (hle : attempt ≤ mr) :
    ErrorHandler.condLoop mr cm ce ep f (rem + 1) attempt last calls condR =
      ErrorHandler.condLoop mr cm ce ep f rem (attempt + 1)
        (some (.http (some status))) (calls + 1) condR := by
  rw [ErrorHandler.condLoop, h]
  simp [hperm, hret, Nat.not_lt.mpr hle]

/-- One iteration of `condLoop` on a conditionally-retryable HTTP failure
for which the context predicate refuses: the loop raises immediately. -/
theorem ErrorHandler.condLoop_step_cond_deny {α : Type} {mr cm : Nat} {ce : Bool}
    {ep : String} {f : Nat → Except ErrorHandler.CondErr α} {rem attempt calls condR : Nat}
    {last : Option ErrorHandler.CondErr} {status : Nat}
    (h : f attempt = .error (.http (some status)))
    (hperm : ErrorHandler.is_permanent_failure status = false)
    (hret : ErrorHandler.should_retry status = false)
    (hctx : ErrorHandler.should_retry_conditionally_ctx status ep attempt = false) :
    ErrorHandler.condLoop mr cm ce ep f (rem + 1) attempt last calls condR =
      ⟨.error (some (.http (some status))), calls + 1, condR⟩ := by
  rw [ErrorHandler.condLoop, h]
  simp [hperm, hret, hctx]

/-- At attempt 3, a 404 is never conditionally retried, whatever the
endpoint: both context rules for 404 require attempt ≤ 2. -/
theorem ErrorHandler.ctx_404_attempt3 (ep : String) :
    ErrorHandler.should_retry_conditionally_ctx 404 ep 3 = false := by
  rw [ErrorHandler.should_retry_conditionally_ctx]
  simp

/-- C3 counterexample: with the configured settings
(`max_retries = 10`, `conditional_retry_max_attempts = 2`, conditional
retries enabled) and a models endpoint, a persistent HTTP 404 starting at
attempt 1 receives 2 conditional retries, but the same persistent 404
first observed after two unconditional 503 retries receives 0 conditional
retries: unconditional retries earlier in the sequence do decrease the
number of conditional retries permitted, refuting the claimed independent
conditional counter. -/
theorem ErrorHandler.conditional_counter_not_independent :
    (ErrorHandler.retry_with_conditional_logic 10 2 true "/models"
        ErrorHandler.c3direct).condRetries = 2 ∧
      (ErrorHandler.retry_with_conditional_logic 10 2 true "/models"
        ErrorHandler.c3direct).calls = 3 ∧
      (ErrorHandler.retry_with_conditional_logic 10 2 true "/models"
        ErrorHandler.c3prefixed).condRetries = 0 ∧
      (ErrorHandler.retry_with_conditional_logic 10 2 true "/models"
        ErrorHandler.c3prefixed).calls = 3 := by
  decide

/-- C3 amended: conditional retries are not counted by an independent
counter — the conditional-retry bound is evaluated against the same
attempt counter as unconditional retries, so unconditional retries earlier
in the sequence decrease the number of conditional retries permitted: for
any endpoint and any `max_retries ≥ 2`, two unconditional 503 retries
followed by a 404 end the sequence at attempt 3 with zero conditional
retries, although a 404 arriving at attempt 1 on a models endpoint would
be conditionally retried. -/
theorem ErrorHandler.conditional_counter_shared (ep : String) {α : Type}
    (max_retries : Nat) (f : Nat → Except ErrorHandler.CondErr α)
    (hmr : 2 ≤ max_retries)
    (h1 : f 1 = .error (.http (some 503)))
    (h2 : f 2 = .error (.http (some 503)))
    (h3 : f 3 = .error (.http (some 404))) :
    ErrorHandler.retry_with_conditional_logic max_retries
        ErrorHandler.conditional_retry_max_attempts true ep f =
      ⟨.error (some (.http (some 404))), 3, 0⟩ := by
  obtain ⟨m, rfl⟩ : ∃ m, max_retries = m + 2 := ⟨max_retries - 2, by omega⟩
  rw [ErrorHandler.retry_with_conditional_logic]
  show ErrorHandler.condLoop (m + 2) _ true ep f (m + 2 + 1) 1 none 0 0 = _
  rw [ErrorHandler.condLoop_step_retry h1 rfl rfl (by omega)]
  show ErrorHandler.condLoop (m + 2) _ true ep f (m + 1 + 1) 2 _ 1 0 = _
  rw [ErrorHandler.condLoop_step_retry h2 rfl rfl (by omega)]
  show ErrorHandler.condLoop (m + 2) _ true ep f (m + 1) 3 _ 2 0 = _
  obtain ⟨k, hk⟩ : ∃ k, m + 1 = k + 1 := ⟨m, rfl⟩
  rw [hk, ErrorHandler.condLoop_step_cond_deny h3 rfl rfl
    (ErrorHandler.ctx_404_attempt3 ep)]

/-- C3 amended witness: `max_retries = 10`, endpoint `/models`, two 503
failures then persistent 404 — the run ends after 3 calls with no
conditional retry. -/
theorem ErrorHandler.conditional_counter_shared_witness :
    ErrorHandler.retry_with_conditional_logic 10
        ErrorHandler.conditional_retry_max_attempts true "/models"
        ErrorHandler.c3prefixed =
      ⟨.error (some (.http (some 404))), 3, 0⟩ :=
  ErrorHandler.conditional_counter_shared "/models" 10 ErrorHandler.c3prefixed
    (by norm_num) rfl rfl rfl

/-- Every status in 411, 412, 413, 414, 416, 417, 418, 421 is also in
`fail_codes`, so `is_permanent_failure` accepts it. -/
theorem ErrorHandler.config_mismatch_codes_permanent (s : Nat)
    (hs : s ∈ [411, 412, 413, 414, 416, 417, 418, 421]) :
    ErrorHandler.is_permanent_failure s = true := by
  fin_cases hs <;> decide

/-- C4 counterexample: with the configured settings, a persistent HTTP 411
failure is propagated after exactly one call to the attempted operation —
it is never retried, conditionally or otherwise, contradicting the claim
that the exchange is retried on the first conditional attempt (at least
two calls). -/
theorem ErrorHandler.status_411_single_attempt :
    (ErrorHandler.retry_with_conditional_logic 10 2 true "/chat/completions"
        (fun _ => .error (α := Unit) (.http (some 411)))).calls = 1 ∧
      (ErrorHandler.retry_with_conditional_logic 10 2 true "/chat/completions"
        (fun _ => .error (α := Unit) (.http (some 411)))).result =
        .error (some (.http (some 411))) := by
  constructor
  · decide
  · rfl

/-- C4 amended: for every HTTP failure with status in
411, 412, 413, 414, 416, 417, 418, 421, the retry loop treats the failure
as permanent and propagates it after a single call to the attempted
operation, because these codes are all in `fail_codes`, which
`retry_with_conditional_logic` checks before the conditional-retry branch;
the first-conditional-attempt rule for them in
`_should_retry_conditionally` is unreachable. -/
theorem ErrorHandler.config_mismatch_codes_propagate {α : Type}
    (max_retries cond_max : Nat) (cond_enabled : Bool) (ep : String)
    (f : Nat → Except ErrorHandler.CondErr α) (s : Nat)
    (hs : s ∈ [411, 412, 413, 414, 416, 417, 418, 421])
    (h1 : f 1 = .error (.http (some s))) :
    ErrorHandler.retry_with_conditional_logic max_retries cond_max cond_enabled ep f =
      ⟨.error (some (.http (some s))), 1, 0⟩ := by
  rw [ErrorHandler.retry_with_conditional_logic]
  exact ErrorHandler.condLoop_step_permanent h1
    (ErrorHandler.config_mismatch_codes_permanent s hs)

/-- C4 amended witness: a 411 failure on attempt 1 with the configured
settings ends the sequence at one call. -/
theorem ErrorHandler.config_mismatch_codes_propagate_witness :
    ErrorHandler.retry_with_conditional_logic 10 2 true "/chat/completions"
        (fun _ => .error (α := Unit) (.http (some 411))) =
      ⟨.error (some (.http (some 411))), 1, 0⟩ :=
  ErrorHandler.config_mismatch_codes_propagate 10 2 true "/chat/completions"
    (fun _ => .error (.http (some 411))) 411 (by decide) rfl

namespace ResponseParser

/-- A status-recategorization rule
(`RecategorizationRule` entries of the `status_recategorization` config
consumed by `ResponseParser`). `description` carries the value of
`rule.get("description", "No description")`. -/
structure RecatRule where
  pattern : String
  original_status : Nat
  new_status : Nat
  description : String

/-- Oracle for `re.search(pattern, message, re.IGNORECASE)`:
`search pattern message = true` when the regex engine finds a match. -/
def SearchFn : Type := String → String → Bool

/-- `ResponseParser._should_apply_rule`
(`src/src/first_hop_proxy/response_parser.py` lines 163-178): the rule
applies when its `original_status` equals the observed status and its
(non-empty) pattern matches some extracted error message. -/
def should_apply_rule (search : SearchFn) (rule : RecatRule) (original_status : Nat)
    (error_messages : List String) : Bool :=
  if rule.original_status ≠ original_status then false
  else if rule.pattern ≠ "" then error_messages.any (fun m => search rule.pattern m)
  else false

/-- Parsing info returned with the (possibly new) status: either the rule
data recorded on a match, or the no-match marker with its `reason`. -/
inductive RecatInfo where
  | matched (original_status new_status : Nat) (matched_pattern description : String)
  | noMatch (reason : String)
deriving DecidableEq

/-- The rule loop of `ResponseParser._parse_json_response`
(`src/src/first_hop_proxy/response_parser.py` lines 50-70): first
applicable rule in declaration order wins. -/
def recat_find (search : SearchFn) (original_status : Nat)
    (error_messages : List String) : List RecatRule → Nat × RecatInfo
  | [] => (original_status, .noMatch "no_matching_rules")
  | rule :: rules =>
    if should_apply_rule search rule original_status error_messages then
      (rule.new_status,
        .matched original_status rule.new_status rule.pattern rule.description)
    else recat_find search original_status error_messages rules

/-- `ResponseParser._parse_json_response`: `recat_enabled` is the
`status_recategorization.enabled` flag; `error_messages` is the result of
`_extract_error_messages` on the decoded JSON body. -/
def parse_json_response (search : SearchFn) (recat_enabled : Bool)
    (rules : List RecatRule) (original_status : Nat)
    (error_messages : List String) : Nat × RecatInfo :=
  if recat_enabled = false then (original_status, .noMatch "recategorization_disabled")
  else recat_find search original_status error_messages rules

end ResponseParser

/-- C6: with recategorization enabled and every configured pattern
non-empty, `_parse_json_response` applies a rule exactly when some rule's
`original_status` equals the observed status and its pattern matches (via
the regex oracle) one of the extracted candidate strings; the first such
rule in declaration order wins and its `new_status`, pattern and
description are reported with `recategorized = true`; when no rule
applies, the original status is returned unchanged with
`recategorized = false`. -/
theorem ResponseParser.parse_json_response_first_match (search : ResponseParser.SearchFn)
    (rules : List ResponseParser.RecatRule) (st : Nat) (msgs : List String)
    (hp : ∀ r ∈ rules, r.pattern ≠ "") :
    (∀ r ∈ rules, (ResponseParser.should_apply_rule search r st msgs = true ↔
        r.original_status = st ∧ ∃ m ∈ msgs, search r.pattern m = true)) ∧
      ((∃ r ∈ rules, ResponseParser.should_apply_rule search r st msgs = true) →
        ∃ pre r post, rules = pre ++ r :: post ∧
          (∀ r' ∈ pre, ResponseParser.should_apply_rule search r' st msgs = false) ∧
          ResponseParser.should_apply_rule search r st msgs = true ∧
          ResponseParser.parse_json_response search true rules st msgs =
            (r.new_status, .matched st r.new_status r.pattern r.description)) ∧
      ((∀ r ∈ rules, ResponseParser.should_apply_rule search r st msgs = false) →
        ResponseParser.parse_json_response search true rules st msgs =
          (st, .noMatch "no_matching_rules")) := by
  refine ⟨?_, ?_, ?_⟩
  · intro r hr
    rw [ResponseParser.should_apply_rule]
    rcases Decidable.em (r.original_status = st) with heq | hne
    · simp [heq, hp r hr, List.any_eq_true]
    · simp [hne, Ne.symm, fun h => hne h]
  · intro hex
    rw [ResponseParser.parse_json_response]
    simp only [Bool.true_eq_false, if_false]
    induction rules with
    | nil => simp at hex
    | cons r rs ih =>
      by_cases hr : ResponseParser.should_apply_rule search r st msgs = true
      · refine ⟨[], r, rs, rfl, by simp, hr, ?_⟩
        rw [ResponseParser.recat_find, if_pos hr]
      · have hex' : ∃ r' ∈ rs, ResponseParser.should_apply_rule search r' st msgs = true := by
          rcases hex with ⟨r', hr', happ⟩
          rcases List.mem_cons.mp hr' with rfl | hmem
          · exact absurd happ hr
          · exact ⟨r', hmem, happ⟩
        have hp' : ∀ r' ∈ rs, r'.pattern ≠ "" := fun r' h => hp r' (List.mem_cons_of_mem _ h)
        rcases ih hp' hex' with ⟨pre, r', post, hsplit, hpre, happ, heq⟩
        refine ⟨r :: pre, r', post, by rw [hsplit, List.cons_append], ?_, happ, ?_⟩
        · intro r'' hr''
          rcases List.mem_cons.mp hr'' with rfl | hmem
          · exact Bool.not_eq_true _ ▸ Bool.of_not_eq_true hr
          · exact hpre r'' hmem
        · rw [ResponseParser.recat_find, if_neg hr]
          exact heq
  · intro hall
    rw [ResponseParser.parse_json_response]
    simp only [Bool.true_eq_false, if_false]
    induction rules with
    | nil => rw [ResponseParser.recat_find]
    | cons r rs ih =>
      rw [ResponseParser.recat_find,
        if_neg (by simp [hall r (List.mem_cons_self r rs)])]
      exact ih (fun r' h => hp r' (List.mem_cons_of_mem _ h))
        (fun r' h => hall r' (List.mem_cons_of_mem _ h))

/-- Case-insensitive literal substring search: a concrete instance of the
regex oracle for patterns without metacharacters. -/
def ResponseParser.demoSearch : ResponseParser.SearchFn := fun p m =>
  strContainsSub (strLower m) (strLower p)

/-- The first recategorization rule of `DEFAULT_CONFIG`
(`src/src/first_hop_proxy/constants.py` lines 74-79). -/
def ResponseParser.overloadRule : ResponseParser.RecatRule :=
  ⟨"The model is overloaded", 200, 429, "Recategorize Google AI overload errors as rate limit"⟩

/-- C6 witness: the overload rule does not fire on a 503 response (its
`original_status` is 200), so the status is returned unchanged with the
no-match marker. -/
theorem ResponseParser.parse_json_response_first_match_witness :
    ResponseParser.parse_json_response ResponseParser.demoSearch true
        [ResponseParser.overloadRule] 503 ["The model is overloaded"] =
      (503, .noMatch "no_matching_rules") :=
  (ResponseParser.parse_json_response_first_match ResponseParser.demoSearch
    [ResponseParser.overloadRule] 503 ["The model is overloaded"]
    (by decide)).2.2 (by decide)

namespace ProxyClient

/-- Decoded JSON values, as produced by `json.loads`. -/
inductive JVal where
  | str (s : String)
  | num (n : Int)
  | bool (b : Bool)
  | null
  | arr (elems : List JVal)
  | obj (fields : List (String × JVal))

/-- A hard-stop rule as read from the `hard_stop_conditions` config:
`rule.get('pattern', '')`, `rule.get('description', ...)`,
`rule.get('user_message', '')`, `rule.get('add_user_message', False)`,
and the `preserve_original_response` flag the spec calls
`preserveOriginal`. -/
structure HardStopRule where
  pattern : String
  description : String
  user_message : String
  add_user_message : Bool
  preserve_original_response : Bool

/-- The OpenAI-compatible error object built by
`ProxyClient._format_hard_stop_response`: the fields of
`error_response["error"]`.  `type'` embeds the JSON key `"type"`. -/
structure HardStopPayload where
  message : String
  type' : String
  code : String
  original_error : Option JVal
  proxy_note : Option JVal

/-- `ProxyClient._format_hard_stop_response`
(`src/proxy_client.py` lines 231-261).  `text` is `response.text` and
`parsed` the outcome of `json.loads(response.text)`: `some fields` when
the body decodes to a JSON object, `none` when decoding raises
`json.JSONDecodeError`. -/
def format_hard_stop_response (text : String)
    (parsed : Option (List (String × JVal))) (rule : HardStopRule) : HardStopPayload :=
  let user_message := if rule.add_user_message then rule.user_message else ""
  let message :=
    if user_message ≠ "" then user_message
    else "Request failed due to downstream provider error"
  let base : HardStopPayload := ⟨message, "hard_stop_error", "hard_stop_condition_met", none, none⟩
  match parsed with
  | none => { base with original_error := some (.obj [("message", .str text)]) }
  | some fields =>
    let withError :=
      match fields.lookup "error" with
      | some (.obj f) => { base with original_error := some (.obj f) }
      | some v => { base with original_error := some (.obj [("message", v)]) }
      | none => base
    match fields.lookup "proxy_note" with
    | some note => { withError with proxy_note := some note }
    | none => withError

end ProxyClient

/-- C7 counterexample: a rule with `preserve_original_response = false`
still gets the original body's `error` field nested under
`original_error` (and `proxy_note` preserved), because
`_format_hard_stop_response` never consults the preserve flag — refuting
the claim that nesting happens only when the flag is set. -/
theorem ProxyClient.hard_stop_ignores_preserve_flag :
    (ProxyClient.format_hard_stop_response "body"
        (some [("error", .obj [("message", .str "boom")]), ("proxy_note", .str "note")])
        ⟨"boom", "d", "msg", true, false⟩).original_error =
        some (.obj [("message", .str "boom")]) ∧
      (ProxyClient.format_hard_stop_response "body"
        (some [("error", .obj [("message", .str "boom")]), ("proxy_note", .str "note")])
        ⟨"boom", "d", "msg", true, false⟩).proxy_note = some (.str "note") :=
  ⟨rfl, rfl⟩

/-- C7 amended: for every matched hard-stop rule,
`_format_hard_stop_response` builds a payload with
`type = "hard_stop_error"` and `code = "hard_stop_condition_met"`;
`message` is the rule's `user_message` when `add_user_message` is set and
the `user_message` is non-empty, and the generic message otherwise; and
the original body's `error` / `proxy_note` fields are nested under
`original_error` / `proxy_note` whenever the body parses as a JSON object
containing them — regardless of the rule's preserve-original flag — while
the raw text is nested under `original_error` when the body is not
JSON. -/
theorem ProxyClient.format_hard_stop_response_spec (text : String)
    (parsed : Option (List (String × ProxyClient.JVal)))
    (rule : ProxyClient.HardStopRule) :
    (ProxyClient.format_hard_stop_response text parsed rule).type' = "hard_stop_error" ∧
      (ProxyClient.format_hard_stop_response text parsed rule).code =
        "hard_stop_condition_met" ∧
      (ProxyClient.format_hard_stop_response text parsed rule).message =
        (if rule.add_user_message ∧ rule.user_message ≠ "" then rule.user_message
         else "Request failed due to downstream provider error") ∧
      (ProxyClient.format_hard_stop_response text parsed rule).original_error =
        (match parsed with
         | none => some (.obj [("message", .str text)])
         | some fields =>
           match fields.lookup "error" with
           | some (.obj f) => some (.obj f)
           | some v => some (.obj [("message", v)])
           | none => none) ∧
      (ProxyClient.format_hard_stop_response text parsed rule).proxy_note =
        (match parsed with
         | none => none
         | some fields => fields.lookup "proxy_note") := by
  rcases parsed with _ | fields
  · by_cases ha : rule.add_user_message <;>
      by_cases hu : rule.user_message = "" <;>
      simp [ProxyClient.format_hard_stop_response, ha, hu]
  · rcases he : fields.lookup "error" with _ | v
    · rcases hn : fields.lookup "proxy_note" with _ | note <;>
        by_cases ha : rule.add_user_message <;>
        by_cases hu : rule.user_message = "" <;>
        simp [ProxyClient.format_hard_stop_response, ha, hu, he, hn]
    · rcases v with s | n | b | _ | elems | f <;>
        rcases hn : fields.lookup "proxy_note" with _ | note <;>
        by_cases ha : rule.add_user_message <;>
        by_cases hu : rule.user_message = "" <;>
        simp [ProxyClient.format_hard_stop_response, ha, hu, he, hn]

namespace ProxyClient

/-- `BLANK_RESPONSE_PATTERNS`
(`src/src/first_hop_proxy/constants.py` lines 28-35). -/
def BLANK_RESPONSE_PATTERNS : List String :=
  ["I'm sorry, I can't", "I cannot", "I'm unable to", "Content policy",
   "Safety filter", "Inappropriate content"]

/-- The fields of `choices[0]` read by `_is_blank_response`:
`message.get("content", "")` and `get("finish_reason", "")`. -/
structure ChatChoice where
  content : String
  finish_reason : String

/-- The fields of a decoded chat-completion body read by
`_is_blank_response`: `object`, `choices`, and
`usage.get("completion_tokens", 0)`. -/
structure ChatResp where
  object : String
  choices : List ChatChoice
  completion_tokens : Nat

/-- `ProxyClient._is_blank_response` (`src/proxy_client.py` lines
191-229): for a `chat.completion` object with a non-empty `choices` list,
blank content (empty or whitespace-only), a refusal-phrase substring
(case-insensitive), or `finish_reason == "MAX_TOKENS"` with
`completion_tokens < 10` marks the response blank. -/
def is_blank_response (r : ChatResp) : Bool :=
  if r.object == "chat.completion" then
    let contentBlank :=
      match r.choices.head? with
      | some c =>
        isBlankStr c.content ||
          BLANK_RESPONSE_PATTERNS.any
            (fun p => strContainsSub (strLower c.content) (strLower p))
      | none => false
    let maxTokensTruncated :=
      match r.choices.head? with
      | some c => c.finish_reason == "MAX_TOKENS" && decide (r.completion_tokens < 10)
      | none => false
    contentBlank || maxTokensTruncated
  else false

/-- The blank-content retry recursion of `ProxyClient.forward_request`
(`src/proxy_client.py` lines 123-137): `f n` is the decoded 200-response
JSON produced by the `n`-th upstream exchange (0-based), abstracting the
HTTP call, recategorization and response processing, all of which are
re-run identically on each recursive `forward_request` call.  Returns the
final returned body and the total number of exchanges performed. -/
def forward_request_blank_retry (f : Nat → ChatResp) (call : Nat)
    (retry_count : Option Nat) : ChatResp × Nat :=
  let response_json := f call
  if is_blank_response response_json then
    match retry_count with
    | none => forward_request_blank_retry f (call + 1) (some 1)
    | some rc =>
      if rc < 3 then forward_request_blank_retry f (call + 1) (some (rc + 1))
      else (response_json, call + 1)
  else (response_json, call + 1)
termination_by 4 - retry_count.getD 0
decreasing_by
  all_goals simp_wf
  all_goals omega

/-- A persistently blank completion used as C8 witness: a
`chat.completion` whose first choice has empty content. -/
def blankResp : ChatResp := ⟨"chat.completion", [⟨"", ""⟩], 0⟩

end ProxyClient

/-- A response satisfying one of the blank conditions on its first choice
is accepted by `_is_blank_response`. -/
theorem ProxyClient.is_blank_response_of_conditions (r : ProxyClient.ChatResp)
    (ho : r.object = "chat.completion") (c : ProxyClient.ChatChoice)
    (cs : List ProxyClient.ChatChoice) (hc : r.choices = c :: cs)
    (hcond : isBlankStr c.content = true ∨
      (∃ p ∈ ProxyClient.BLANK_RESPONSE_PATTERNS,
        strContainsSub (strLower c.content) (strLower p) = true) ∨
      (c.finish_reason = "MAX_TOKENS" ∧ r.completion_tokens < 10)) :
    ProxyClient.is_blank_response r = true := by
  rw [ProxyClient.is_blank_response]
  simp only [ho, hc, List.head?, beq_self_eq_true, if_true]
  rcases hcond with hb | ⟨p, hp, hm⟩ | ⟨hfr, hlt⟩
  · simp [hb]
  · simp [List.any_eq_true]
    exact Or.inl (Or.inr ⟨p, hp, hm⟩)
  · simp [hfr, hlt]

/-- C8: for a persistently blank completion (first choice's content empty
or whitespace-only, or containing a configured refusal phrase
case-insensitively, or `finish_reason MAX_TOKENS` with fewer than 10
completion tokens), the guard starting from an unset retry counter
performs exactly 3 additional exchanges after the first one and returns
the blank body observed on the 4th exchange. -/
theorem ProxyClient.blank_retry_capped (f : Nat → ProxyClient.ChatResp)
    (h : ∀ n, (f n).object = "chat.completion" ∧
      ∃ c cs, (f n).choices = c :: cs ∧
        (isBlankStr c.content = true ∨
          (∃ p ∈ ProxyClient.BLANK_RESPONSE_PATTERNS,
            strContainsSub (strLower c.content) (strLower p) = true) ∨
          (c.finish_reason = "MAX_TOKENS" ∧ (f n).completion_tokens < 10))) :
    ProxyClient.forward_request_blank_retry f 0 none = (f 3, 4) := by
  have hb : ∀ n, ProxyClient.is_blank_response (f n) = true := by
    intro n
    rcases h n with ⟨ho, c, cs, hc, hcond⟩
    exact ProxyClient.is_blank_response_of_conditions (f n) ho c cs hc hcond
  unfold ProxyClient.forward_request_blank_retry
  simp [hb 0]
  unfold ProxyClient.forward_request_blank_retry
  simp [hb 1]
  unfold ProxyClient.forward_request_blank_retry
  simp [hb 2]
  unfold ProxyClient.forward_request_blank_retry
  simp [hb 3]

/-- C8 witness: a constant blank completion is re-fetched 3 times and then
returned as-is after the 4th exchange. -/
theorem ProxyClient.blank_retry_capped_witness :
    ProxyClient.forward_request_blank_retry (fun _ => ProxyClient.blankResp) 0 none =
      (ProxyClient.blankResp, 4) :=
  ProxyClient.blank_retry_capped (fun _ => ProxyClient.blankResp)
    (fun _ => ⟨rfl, ⟨"", ""⟩, [], rfl, Or.inl rfl⟩)

namespace Utils

/-- A rewrite rule as read by `apply_regex_replacements`
(`src/src/first_hop_proxy/utils.py` lines 105-110): `rule.get("pattern")`
(`none` when absent), `rule.get("replacement", "")`,
`rule.get("flags", "")` and `rule.get("apply_to", "all")`. -/
structure RewriteRule where
  pattern : Option String
  replacement : String
  flags : String
  apply_to : String

/-- The `re` flag set assembled from the rule's `flags` string
(`src/src/first_hop_proxy/utils.py` lines 115-124). -/
structure ReFlags where
  ignorecase : Bool
  multiline : Bool
  dotall : Bool
  verbose : Bool
deriving DecidableEq

/-- Flag parsing: `"i" in flags_str` etc. -/
def parse_flags (s : String) : ReFlags :=
  ⟨s.data.contains 'i', s.data.contains 'm', s.data.contains 's', s.data.contains 'x'⟩

/-- Oracle for `re.sub(pattern, replacement, result, flags=flags)`:
`some r` is the substituted text, `none` means the call raised one of the
errors caught by the source (`re.error`, `TypeError`, `ValueError`) —
in particular a pattern that fails to compile yields `none` on every
input. -/
def SubFn : Type := String → String → ReFlags → String → Option String

/-- The per-rule body of the `for rule in rules` loop of
`apply_regex_replacements`: skip rules without a (non-empty) pattern,
apply the substitution, and on an error keep the current text
(the source's `except ...: continue`). -/
def applyRuleStep (sub : SubFn) (result : String) (rule : RewriteRule) : String :=
  match rule.pattern with
  | none => result
  | some p =>
    if p = "" then result
    else
      match sub p rule.replacement (parse_flags rule.flags) result with
      | some r => r
      | none => result

/-- `apply_regex_replacements`
(`src/src/first_hop_proxy/utils.py` lines 89-136). -/
def apply_regex_replacements (sub : SubFn) (text : String)
    (rules : List RewriteRule) : String :=
  if text = "" then text
  else if rules.isEmpty then text
  else rules.foldl (applyRuleStep sub) text

/-- A message as read by `process_messages_with_regex`:
`message.get("role", "")`, `message.get("content", "")`, and `rest` for
every other field of the dictionary, which `message.copy()` carries over
unchanged. -/
structure Message (α : Type) where
  role : String
  content : String
  rest : α

/-- The loop body of `process_messages_with_regex` for one message:
filter the rules by `apply_to == "all" or apply_to == role` (both
lowercased), pass messages with empty content through, otherwise take
`message.copy()` with only `content` replaced. -/
def processOneMessage {α : Type} (sub : SubFn) (rules : List RewriteRule)
    (m : Message α) : Message α :=
  let role := strLower m.role
  if m.content = "" then m
  else
    let applicable := rules.filter (fun r =>
      strLower r.apply_to == "all" || strLower r.apply_to == role)
    { m with content := apply_regex_replacements sub m.content applicable }

/-- `process_messages_with_regex`
(`src/src/first_hop_proxy/utils.py` lines 139-191). -/
def process_messages_with_regex {α : Type} (sub : SubFn)
    (messages : List (Message α)) (rules : List RewriteRule) : List (Message α) :=
  if messages.isEmpty then messages
  else if rules.isEmpty then messages
  else messages.map (processOneMessage sub rules)

end Utils

/-- Applying an empty rule list never changes the text. -/
theorem Utils.apply_regex_replacements_nil (sub : Utils.SubFn) (text : String) :
    Utils.apply_regex_replacements sub text [] = text := by
  rw [Utils.apply_regex_replacements]
  by_cases h : text = "" <;> simp [h]

/-- `processOneMessage` changes at most the `content` field, and leaves a
message untouched when every rule requires role `user` and the message's
role is not `user`. -/
theorem Utils.processOneMessage_spec {α : Type} (sub : Utils.SubFn)
    (rules : List Utils.RewriteRule) (m : Utils.Message α)
    (h : ∀ r ∈ rules, strLower r.apply_to = "user") :
    (Utils.processOneMessage sub rules m).role = m.role ∧
      (Utils.processOneMessage sub rules m).rest = m.rest ∧
      (strLower m.role ≠ "user" → Utils.processOneMessage sub rules m = m) := by
  have heq : Utils.processOneMessage sub rules m =
      if m.content = "" then m
      else { m with
              content := Utils.apply_regex_replacements sub m.content
                (rules.filter (fun r =>
                  strLower r.apply_to == "all" ||
                    strLower r.apply_to == strLower m.role)) } := rfl
  by_cases hc : m.content = ""
  · rw [heq, if_pos hc]
    exact ⟨rfl, rfl, fun _ => rfl⟩
  rw [heq, if_neg hc]
  refine ⟨rfl, rfl, fun hrole => ?_⟩
  have hfilter : rules.filter (fun r =>
      strLower r.apply_to == "all" || strLower r.apply_to == strLower m.role) = [] := by
    rw [List.filter_eq_nil_iff]
    intro r hrmem
    rw [h r hrmem]
    simp only [Bool.or_eq_true, beq_iff_eq, not_or]
    exact ⟨by decide, fun hequ => hrole hequ.symm⟩
  rw [hfilter, Utils.apply_regex_replacements_nil]

/-- C9: when every rule is restricted to `applyTo = "user"`
(case-insensitively), `process_messages_with_regex` keeps the list length,
preserves every field but `content` of every message, and returns
messages whose role is not `user` (case-insensitively) entirely
unchanged — assistant and system content is untouched. -/
theorem Utils.process_messages_user_rules {α : Type} (sub : Utils.SubFn)
    (messages : List (Utils.Message α)) (rules : List Utils.RewriteRule)
    (h : ∀ r ∈ rules, strLower r.apply_to = "user") :
    (Utils.process_messages_with_regex sub messages rules).length = messages.length ∧
      ∀ (i : Nat) (m : Utils.Message α), messages[i]? = some m →
        ∃ m' : Utils.Message α,
          (Utils.process_messages_with_regex sub messages rules)[i]? = some m' ∧
          m'.role = m.role ∧ m'.rest = m.rest ∧
          (strLower m.role ≠ "user" → m' = m) := by
  have heq : Utils.process_messages_with_regex sub messages rules =
      if messages.isEmpty then messages
      else if rules.isEmpty then messages
      else messages.map (Utils.processOneMessage sub rules) := rfl
  by_cases hm : messages.isEmpty = true
  · rw [heq, if_pos hm]
    exact ⟨rfl, fun i m hi => ⟨m, hi, rfl, rfl, fun _ => rfl⟩⟩
  by_cases hr : rules.isEmpty = true
  · rw [heq, if_neg hm, if_pos hr]
    exact ⟨rfl, fun i m hi => ⟨m, hi, rfl, rfl, fun _ => rfl⟩⟩
  rw [heq, if_neg hm, if_neg hr]
  refine ⟨List.length_map _ _, fun i m hi => ?_⟩
  have hg : (messages.map (Utils.processOneMessage sub rules))[i]? =
      some (Utils.processOneMessage sub rules m) := by
    rw [List.getElem?_map, hi, Option.map_some']
  rcases Utils.processOneMessage_spec sub rules m h with ⟨h1, h2, h3⟩
  exact ⟨Utils.processOneMessage sub rules m, hg, h1, h2, h3⟩

/-- C10: a rule whose pattern fails to compile (the substitution oracle
errors on every input) is skipped, and the remaining rules are applied in
order to the text produced by the rules before it: deleting the invalid
rule from the list gives the same final text. -/
theorem Utils.apply_regex_invalid_rule_skipped (sub : Utils.SubFn) (text : String)
    (pre post : List Utils.RewriteRule) (bad : Utils.RewriteRule) (p : String)
    (hp : bad.pattern = some p) (hne : p ≠ "")
    (hfail : ∀ t, sub p bad.replacement (Utils.parse_flags bad.flags) t = none) :
    Utils.apply_regex_replacements sub text (pre ++ bad :: post) =
      Utils.apply_regex_replacements sub text (pre ++ post) := by
  have hstep : ∀ acc, Utils.applyRuleStep sub acc bad = acc := by
    intro acc
    rw [Utils.applyRuleStep, hp]
    simp [hne, hfail acc]
  rw [Utils.apply_regex_replacements, Utils.apply_regex_replacements]
  by_cases htext : text = ""
  · simp [htext]
  simp only [htext, if_false]
  have hne1 : (pre ++ bad :: post).isEmpty = false := by cases pre <;> rfl
  rw [hne1]
  by_cases hpp : (pre ++ post).isEmpty = true
  · have hpre : pre = [] := by
      cases pre with
      | nil => rfl
      | cons a l => simp at hpp
    subst hpre
    have hpost : post = [] := by
      cases post with
      | nil => rfl
      | cons a l => simp at hpp
    subst hpost
    simp [hstep]
  simp only [Bool.not_eq_true] at hpp
  rw [hpp]
  simp only [Bool.false_eq_true, if_false]
  rw [List.foldl_append, List.foldl_append]
  rw [show ((bad :: post).foldl (Utils.applyRuleStep sub)
        (pre.foldl (Utils.applyRuleStep sub) text)) =
      post.foldl (Utils.applyRuleStep sub)
        (Utils.applyRuleStep sub (pre.foldl (Utils.applyRuleStep sub) text) bad) from rfl]
  rw [hstep]

/-- A concrete substitution oracle for witnesses: the unbalanced pattern
`(` fails to compile (yielding `none` like `re.error`), every other
pattern appends the replacement to the text. -/
def Utils.demoSub : Utils.SubFn := fun p repl _ t =>
  if p = "(" then none else some (t ++ repl)

/-- An assistant message with some extra payload, for the C9 witness. -/
def Utils.msgAssistant : Utils.Message Nat := ⟨"assistant", "hello", 7⟩

/-- A user message with some extra payload, for the C9 witness. -/
def Utils.msgUser : Utils.Message Nat := ⟨"user", "hello", 8⟩

/-- A single rewrite rule restricted to user messages, for the C9
witness. -/
def Utils.userRules : List Utils.RewriteRule := [⟨some "h", "X", "", "user"⟩]

/-- C9 witness: with one user-only rule, the assistant message at index 0
is returned entirely unchanged. -/
theorem Utils.process_messages_user_rules_witness :
    (Utils.process_messages_with_regex Utils.demoSub
        [Utils.msgAssistant, Utils.msgUser] Utils.userRules)[0]? =
      some Utils.msgAssistant := by
  obtain ⟨hlen, hidx⟩ := Utils.process_messages_user_rules Utils.demoSub
    [Utils.msgAssistant, Utils.msgUser] Utils.userRules (by decide)
  obtain ⟨m', hm', hrole, hrest, hunch⟩ := hidx 0 Utils.msgAssistant rfl
  rw [hunch (by decide)] at hm'
  exact hm'

/-- A valid rewrite rule replacing using pattern `a`, for the C10
witness. -/
def Utils.ruleA : Utils.RewriteRule := ⟨some "a", "A", "", "all"⟩

/-- A rewrite rule whose pattern `(` fails to compile, for the C10
witness. -/
def Utils.ruleBad : Utils.RewriteRule := ⟨some "(", "r", "", "all"⟩

/-- A valid rewrite rule replacing using pattern `b`, for the C10
witness. -/
def Utils.ruleB : Utils.RewriteRule := ⟨some "b", "B", "", "all"⟩

/-- C10 witness: the invalid middle rule is skipped, so running the list
with it equals running the list without it — the valid rules before and
after it still apply. -/
theorem Utils.apply_regex_invalid_rule_skipped_witness :
    Utils.apply_regex_replacements Utils.demoSub "text"
        [Utils.ruleA, Utils.ruleBad, Utils.ruleB] =
      Utils.apply_regex_replacements Utils.demoSub "text"
        [Utils.ruleA, Utils.ruleB] :=
  Utils.apply_regex_invalid_rule_skipped Utils.demoSub "text" [Utils.ruleA]
    [Utils.ruleB] Utils.ruleBad "(" rfl (by decide) (fun _ => rfl)
